import Mathlib

/-!
Verification of the nurse-scheduling core of this repository.

The Python sources are shallowly embedded:
* coverage bitmaps (lists of 672 ints in Python) become total functions
  `Nat → Nat`; a slice assignment becomes a function update on a range;
* the preprocessing of `src/app/code/processing/preprocess.py`
  (`NurseSchedulingPreprocessor`, `add_coverage_blocks`,
  `remove_coverage_blocks`) is translated definition by definition;
* the CP-SAT model of `src/app/code/solvers/cp_solver.py` and the Gurobi
  model of `src/app/code/solvers/gurobi_solver.py` are embedded as
  decidable satisfaction predicates over explicit assignments of their
  integer and boolean variables;
* the post-hoc checker of `src/app/code/processing/validator.py` is
  embedded as executable functions on the solution tables.
-/

set_option maxRecDepth 100000
set_option maxHeartbeats 4000000
set_option linter.unusedVariables false

namespace NS


/-! ## Time grid constants (preprocess.py lines 15-17) -/

def WEEK_MINUTES : Nat := 7 * 24 * 60

def TIME_GRAN : Nat := 15

def N_BLOCKS : Nat := WEEK_MINUTES / TIME_GRAN

/-- `minute_to_block` (preprocess.py line 19): integer division by 15. -/
def minute_to_block (m : Nat) : Nat := m / TIME_GRAN

/-- `block_to_minute` (preprocess.py line 30). -/
def block_to_minute (b : Nat) : Nat := b * TIME_GRAN

/-- Python list of ints, embedded as a total function from index to value.
Writing the half-open index range `[lo, hi)` to the constant `v`
models the loop `for b in range(lo, hi): arr[b] = v`. -/
def writeRange (arr : Nat → Nat) (lo hi v : Nat) : Nat → Nat :=
  fun b => if lo ≤ b ∧ b < hi then v else arr b

/-- `add_coverage_blocks` (preprocess.py lines 57-81).
Sets blocks to 1 for the minute interval `[start_min, end_min)`,
wrapping from Sunday to Monday when `end_min ≥ WEEK_MINUTES`
(the Python test is `end_min < WEEK_MINUTES`, strict). -/
def add_coverage_blocks (arr : Nat → Nat) (start_min end_min : Nat) : Nat → Nat :=
  if end_min < WEEK_MINUTES then
    let s_block := minute_to_block start_min
    let e_block := max s_block (minute_to_block end_min)
    writeRange arr s_block (min (e_block + 1) N_BLOCKS) 1
  else
    let s_block := minute_to_block start_min
    let arr1 := writeRange arr s_block N_BLOCKS 1
    let e_block2 := minute_to_block (end_min - WEEK_MINUTES)
    writeRange arr1 0 (min (e_block2 + 1) N_BLOCKS) 1

/-- `remove_coverage_blocks` (preprocess.py lines 83-106): same index
arithmetic as `add_coverage_blocks` but writing 0. -/
def remove_coverage_blocks (arr : Nat → Nat) (start_min end_min : Nat) : Nat → Nat :=
  if end_min < WEEK_MINUTES then
    let s_block := minute_to_block start_min
    let e_block := max s_block (minute_to_block end_min)
    writeRange arr s_block (min (e_block + 1) N_BLOCKS) 0
  else
    let s_block := minute_to_block start_min
    let arr1 := writeRange arr s_block N_BLOCKS 0
    let e_block2 := minute_to_block (end_min - WEEK_MINUTES)
    writeRange arr1 0 (min (e_block2 + 1) N_BLOCKS) 0

/-- The all-zero coverage array `[0]*N_BLOCKS`. -/
def zeroCover : Nat → Nat := fun _ => 0


/-! ## Preprocessor: `NurseSchedulingPreprocessor` (preprocess.py 108-303) -/

/-- An `HH:MM` field, already split into hour and minute
(`map(int, s.split(':'))` in the Python sources). -/
structure Time where
  hh : Nat
  mm : Nat
deriving DecidableEq, Inhabited

/-- Minutes of day of a time field, `h*60+m`. -/
def timeMin (t : Time) : Nat := t.hh * 60 + t.mm

/-- One row of the shifts table (the columns the scheduling logic reads;
`name` and `weight` only feed reporting and the objective). -/
structure ShiftRow where
  start : Time
  stop : Time
  brk : Time
  break_duration : Nat
  max_nurses : Nat
  days : List Bool
deriving DecidableEq, Inhabited

/-- One row of the tasks table. -/
structure TaskRow where
  start : Time
  stop : Time
  duration_min : Nat
  nurses_required : Nat
  days : List Bool
deriving DecidableEq

/-- `_compute_start_end_minutes` (preprocess.py 141-165): absolute minutes
for a day index; add 24h to the end when it precedes the start. -/
def compute_start_end_minutes (day_index : Nat) (startT stopT : Time) : Nat × Nat :=
  let day_offset := day_index * 1440
  let start_min := day_offset + timeMin startT
  let end_min0 := day_offset + timeMin stopT
  (start_min, if end_min0 < start_min then end_min0 + 24 * 60 else end_min0)

/-- The break interval of a shift row on one day (preprocess.py 208-213):
its start is shifted by 24h when it precedes the shift start; its end is
`break_start + break_duration`; no clamping is applied. -/
def break_interval (row : ShiftRow) (day_index start_min : Nat) : Nat × Nat :=
  let break_start0 := day_index * 1440 + timeMin row.brk
  let break_start := if break_start0 < start_min then break_start0 + 24 * 60 else break_start0
  (break_start, break_start + row.break_duration)

/-- One iteration of the day loop in `_process_shifts`
(preprocess.py 199-217): add the day's coverage, then remove the break. -/
def process_shift_day (row : ShiftRow) (arr : Nat → Nat) (day_index : Nat) : Nat → Nat :=
  if row.days.getD day_index false then
    let se := compute_start_end_minutes day_index row.start row.stop
    let bi := break_interval row day_index se.1
    remove_coverage_blocks (add_coverage_blocks arr se.1 se.2) bi.1 bi.2
  else arr

/-- The compiled coverage array of one shift row: the day loop of
`_process_shifts` starting from `[0]*N_BLOCKS`. -/
def shift_coverage_arr (row : ShiftRow) : Nat → Nat :=
  (List.range 7).foldl (process_shift_day row) zeroCover

/-- The start blocks recorded for one shift row (preprocess.py 219-221),
one per active day, in day order. -/
def shift_start_blocks_row (row : ShiftRow) : List Nat :=
  (List.range 7).filterMap (fun d =>
    if row.days.getD d false then
      some (minute_to_block (compute_start_end_minutes d row.start row.stop).1)
    else none)

/-- The `shift_start_blocks` defaultdict of the preprocessor, flattened to
(block, shift index) pairs; the list of shift indices stored under block
`b` is exactly the second components of the pairs with first component
`b`. -/
def start_pairs (shifts : List ShiftRow) : List (Nat × Nat) :=
  (shifts.enum.map (fun p => (shift_start_blocks_row p.2).map (fun b => (b, p.1)))).flatten

/-- The preprocessed data of one (task, active day) pair
(`_process_tasks`, preprocess.py 248-267): note `latest_block` is
reduced mod `N_BLOCKS`. -/
structure TaskInfo where
  earliest_block : Nat
  latest_block : Nat
  duration_blocks : Nat
  required_nurses : Nat
deriving DecidableEq

/-- One (task, day) expansion step of `_process_tasks`. -/
def process_task_day (row : TaskRow) (d : Nat) : TaskInfo :=
  let se := compute_start_end_minutes d row.start row.stop
  { earliest_block := se.1 / TIME_GRAN
    latest_block := (se.2 / TIME_GRAN) % N_BLOCKS
    duration_blocks := row.duration_min / TIME_GRAN
    required_nurses := row.nurses_required }

/-- `tasks_info`: the day-specific task list in iteration order. -/
def tasks_info (tasks : List TaskRow) : List TaskInfo :=
  (tasks.map (fun row => (List.range 7).filterMap (fun d =>
    if row.days.getD d false then some (process_task_day row d) else none))).flatten


/-! ## CP-SAT model: `OptimalNurseSchedulerCP._build_model`
(cp_solver.py 96-239), embedded as a satisfaction predicate over an
explicit assignment of every model variable. -/

/-- Step 0 of `_build_model` (cp_solver.py 105-112): widen a
Sunday-to-Monday wrapped window into a linear interval. -/
def adjusted_range (t : TaskInfo) : Nat × Nat :=
  if t.latest_block < t.earliest_block then
    (t.earliest_block, t.latest_block + N_BLOCKS)
  else (t.earliest_block, t.latest_block)

/-- The extended active range `range(e_b, l_b + d_b)` of an instance
(cp_solver.py 128 and 149). -/
def ext_blocks (t : TaskInfo) : List Nat :=
  List.range' (adjusted_range t).1
    ((adjusted_range t).2 + t.duration_blocks - (adjusted_range t).1)

/-- `b in self.task_covers_bool[i]` (cp_solver.py 210): the coverage
boolean dictionary of instance `i` has key `b`. -/
def in_cover_keys (t : TaskInfo) (b : Nat) : Bool :=
  (ext_blocks t).any (fun eb => eb % N_BLOCKS == b)

/-- An assignment of the CP model's variables: per-shift usage `U`,
per-instance start `S`, occupancy booleans `A` (keyed by block mod 672),
the two reification scratch booleans per extended block, and the
handover booleans `H`. -/
structure CPAssign where
  U : Nat → Nat
  S : Nat → Nat
  A : Nat → Nat → Bool
  aux1 : Nat → Nat → Bool
  aux2 : Nat → Nat → Bool
  H : Nat → Bool

/-- Booleans as the 0/1 integers CP-SAT sums over. -/
def b2n (x : Bool) : Nat := if x then 1 else 0

/-- Variable bounds of `shift_usage_vars` (cp_solver.py 117). -/
def usage_ok (shifts : List ShiftRow) (σ : CPAssign) : Bool :=
  shifts.enum.all (fun p => σ.U p.1 ≤ p.2.max_nurses)

/-- Variable bounds of `task_start_vars` (cp_solver.py 135): the domain
is the linear interval of `adjusted_ranges`, kept unreduced. -/
def start_ok (ts : List TaskInfo) (σ : CPAssign) : Bool :=
  ts.enum.all (fun p =>
    decide ((adjusted_range p.2).1 ≤ σ.S p.1) &&
    decide (σ.S p.1 ≤ (adjusted_range p.2).2))

/-- Step 3 of `_build_model` (cp_solver.py 139-164): reification of the
occupancy booleans through `aux1`, `aux2`, `AddBoolAnd`/`AddBoolOr`. -/
def reif_ok (ts : List TaskInfo) (σ : CPAssign) : Bool :=
  ts.enum.all (fun p =>
    (ext_blocks p.2).all (fun eb =>
      (σ.aux1 p.1 eb == decide (σ.S p.1 ≤ eb)) &&
      (σ.aux2 p.1 eb == decide (eb < σ.S p.1 + p.2.duration_blocks)) &&
      (if σ.A p.1 (eb % N_BLOCKS) then σ.aux1 p.1 eb && σ.aux2 p.1 eb
       else !(σ.aux1 p.1 eb) || !(σ.aux2 p.1 eb))))

/-- `starts_at[b]` (cp_solver.py 177-183): summed usage of the shifts
recorded as starting at block `b`. -/
def starts_at (shifts : List ShiftRow) (U : Nat → Nat) (b : Nat) : Nat :=
  (((start_pairs shifts).filter (fun p => p.1 == b)).map (fun p => U p.2)).sum

/-- `max_possible_usage_per_block[b]` (cp_solver.py 171-175). -/
def max_at_start (shifts : List ShiftRow) (b : Nat) : Nat :=
  (((start_pairs shifts).filter (fun p => p.1 == b)).map
    (fun p => ((shifts.get? p.2).getD default).max_nurses)).sum

/-- Step 4 of `_build_model` (cp_solver.py 185-196): handover booleans. -/
def handover_ok (shifts : List ShiftRow) (σ : CPAssign) : Bool :=
  (List.range N_BLOCKS).all (fun b =>
    let M := max_at_start shifts b
    if 0 < M then
      decide (starts_at shifts σ.U b ≤ M * b2n (σ.H b)) &&
      decide (b2n (σ.H b) ≤ starts_at shifts σ.U b)
    else σ.H b == false)

/-- The coverage terms of block `b` (cp_solver.py 202-205): summed usage
of the shifts whose compiled coverage is positive at `b`. -/
def raw_coverage (shifts : List ShiftRow) (U : Nat → Nat) (b : Nat) : Nat :=
  ((shifts.enum.filter (fun p => 0 < shift_coverage_arr p.2 b)).map
    (fun p => U p.1)).sum

/-- The task demand expression of block `b` (cp_solver.py 207-213). -/
def task_demand (ts : List TaskInfo) (σ : CPAssign) (b : Nat) : Nat :=
  ((ts.enum.filter (fun p => in_cover_keys p.2 b)).map
    (fun p => p.2.required_nurses * b2n (σ.A p.1 b))).sum

/-- Constraint C3 of `_build_model` at one block (cp_solver.py 215-224):
effective coverage (raw minus `starts_at` minus handover) covers the
task demand of the block. -/
def cp_block_ok (shifts : List ShiftRow) (ts : List TaskInfo) (σ : CPAssign) (b : Nat) : Bool :=
  decide ((task_demand ts σ b : Int) ≤
    (raw_coverage shifts σ.U b : Int) - starts_at shifts σ.U b - b2n (σ.H b))

/-- Constraint C3 of `_build_model` over all blocks. -/
def coverage_ok (shifts : List ShiftRow) (ts : List TaskInfo) (σ : CPAssign) : Bool :=
  (List.range N_BLOCKS).all (cp_block_ok shifts ts σ)

/-- Constraint C4 of `_build_model` (cp_solver.py 226-228): the global
floor, added only when positive, over the raw coverage terms. -/
def floor_ok (shifts : List ShiftRow) (U : Nat → Nat) (min_nurses : Nat) : Bool :=
  (List.range N_BLOCKS).all (fun b =>
    if 0 < min_nurses then decide (min_nurses ≤ raw_coverage shifts U b) else true)

/-- Satisfaction of the whole CP model built by
`OptimalNurseSchedulerCP._build_model` from raw shift and task rows. -/
def cp_model_sat (shifts : List ShiftRow) (tasks : List TaskRow)
    (min_nurses : Nat) (σ : CPAssign) : Bool :=
  usage_ok shifts σ && start_ok (tasks_info tasks) σ &&
  reif_ok (tasks_info tasks) σ && handover_ok shifts σ &&
  coverage_ok shifts (tasks_info tasks) σ && floor_ok shifts σ.U min_nurses


/-! ## Gurobi model: `GurobiNurseSolver._build_model`
(gurobi_solver.py 78-245).  The Python model indexes blocks, shifts and
tasks from 1 and looks constants up as `e[j, t] = coverage[t-1]`; the
embedding uses the underlying 0-based block/shift/task indices, which
name exactly the same variables and constants. -/

/-- `self.h[j, t]` (gurobi_solver.py 91-94): shift `j` has a start point
recorded at block `b` in the preprocessor's `shift_start_blocks`. -/
def hB (shifts : List ShiftRow) (j b : Nat) : Bool :=
  (start_pairs shifts).any (fun p => p.1 == b && p.2 == j)

/-- `self.candidate_blocks[i]` (gurobi_solver.py 96-125): for each
feasible start `j`, the list of blocks covered by the task when it
starts at `j`; wrap handling differs between the two loops exactly as in
the source. -/
def candidate_blocks (t : TaskInfo) : List (List Nat) :=
  if t.earliest_block ≤ t.latest_block then
    (List.range' t.earliest_block (t.latest_block + 1 - t.earliest_block)).map (fun j =>
      (List.range t.duration_blocks).map (fun k =>
        if k + j ≤ N_BLOCKS - 1 then j + k else j + k - N_BLOCKS))
  else
    ((List.range' t.earliest_block (N_BLOCKS - t.earliest_block)).map (fun j =>
      (List.range t.duration_blocks).map (fun k =>
        if k + j ≤ N_BLOCKS - 1 then j + k else j + k - N_BLOCKS)))
    ++ ((List.range (t.latest_block + 1)).map (fun j =>
      (List.range t.duration_blocks).map (fun k => j + k)))

/-- `self.max_starting_nurses[t]` (gurobi_solver.py 138-140). -/
def max_starting (shifts : List ShiftRow) (b : Nat) : Nat :=
  (shifts.enum.map (fun q => b2n (hB shifts q.1 b) * q.2.max_nurses)).sum

/-- Maximum of a list of naturals, written as a strict tail recursion so
that concrete evaluation runs in constant stack space. -/
def nat_list_max : List Nat → Nat → Nat
  | [], acc => acc
  | x :: t, acc => if acc < x then nat_list_max t x else nat_list_max t acc

/-- `self.Big_M` (gurobi_solver.py 141): the maximum of
`max_starting_nurses` over all blocks. -/
def big_M (shifts : List ShiftRow) : Nat :=
  nat_list_max ((List.range N_BLOCKS).map (max_starting shifts)) 0

/-- An assignment of the Gurobi model's decision variables
(gurobi_solver.py 143-198): `f` candidate choice, `u` task-active,
`k` usage, `x` required coverage, `n` nurses present, `r` handover
receivers, `p` handover provider.  `x`, `n`, `r` carry Gurobi's default
lower bound 0 by living in `Nat`. -/
structure GRBAssign where
  f : Nat → Nat → Bool
  u : Nat → Nat → Bool
  k : Nat → Nat
  x : Nat → Nat
  n : Nat → Nat
  r : Nat → Nat
  p : Nat → Bool

/-- Satisfaction of the Gurobi model's constraints 1-8
(gurobi_solver.py 210-245) together with the variable bounds of `k`.
Constraint 4, `p[t] >= r[t] / Big_M`, is embedded as
`r[t] <= Big_M * p[t]`, its meaning for the positive `Big_M` of any
model the Python code can build without dividing by zero. -/
def gurobi_model_sat (shifts : List ShiftRow) (tasks : List TaskRow)
    (min_nurses : Nat) (τ : GRBAssign) : Bool :=
  let ts := tasks_info tasks
  let M := big_M shifts
  (shifts.enum.all (fun q => decide (τ.k q.1 ≤ q.2.max_nurses))) &&
  (ts.enum.all (fun q =>
    ((candidate_blocks q.2).enum.map (fun c => b2n (τ.f q.1 c.1))).sum == 1)) &&
  (ts.enum.all (fun q => (List.range N_BLOCKS).all (fun b =>
    decide (((candidate_blocks q.2).enum.map
      (fun c => b2n (τ.f q.1 c.1) * b2n (c.2.contains b))).sum ≤ b2n (τ.u q.1 b))))) &&
  ((List.range N_BLOCKS).all (fun b =>
    τ.r b == (shifts.enum.map (fun q => τ.k q.1 * b2n (hB shifts q.1 b))).sum)) &&
  ((List.range N_BLOCKS).all (fun b => decide (τ.r b ≤ M * b2n (τ.p b)))) &&
  ((List.range N_BLOCKS).all (fun b =>
    decide ((ts.enum.map (fun q => b2n (τ.u q.1 b) * q.2.required_nurses)).sum
      + τ.r b + b2n (τ.p b) ≤ τ.x b))) &&
  ((List.range N_BLOCKS).all (fun b => decide (min_nurses ≤ τ.x b))) &&
  ((List.range N_BLOCKS).all (fun b =>
    τ.n b == (shifts.enum.map (fun q => shift_coverage_arr q.2 b * τ.k q.1)).sum)) &&
  ((List.range N_BLOCKS).all (fun b => decide (τ.x b ≤ τ.n b)))


/-! ## Validator (validator.py), embedded over the two solution tables. -/

/-- `to_quarter_of_day` (validator.py 43-52). -/
def to_quarter (t : Time) : Nat := t.hh * 4 + t.mm / 15

/-- `get_end_day` (validator.py 54-68). -/
def get_end_day (startT stopT : Time) (d : Nat) : Nat :=
  if to_quarter stopT < to_quarter startT then (d + 1) % 7 else d

/-- `get_shift_index` (validator.py 70-94): working start index (one past
the start quarter for the briefing), end index, and break indices. -/
def get_shift_index (startT stopT : Time) (d : Nat) (brkT : Time)
    (break_duration : Nat) : Nat × Nat × Nat × Nat :=
  let start_quarter := to_quarter startT
  let end_quarter := to_quarter stopT
  let end_day := get_end_day startT stopT d
  let start_index := (d * 96 + start_quarter + 1) % 672
  let end_index := (end_day * 96 + end_quarter + 1) % 672
  let start_break_day := get_end_day startT brkT d
  let start_break_index := (start_break_day * 96 + to_quarter brkT) % 672
  let end_break_index := (start_break_index + break_duration / 15 + 1) % 672
  (start_index, end_index, start_break_index, end_break_index)

/-- A numpy slice update `cov[lo:hi] += add` on a length-672 vector. -/
def addRange (cov : Nat → Nat) (lo hi add : Nat) : Nat → Nat :=
  fun b => if lo ≤ b ∧ b < hi then cov b + add else cov b

/-- One row of the solved shifts table as the validator reads it
(original columns plus `usage`). -/
structure VShiftRow where
  start : Time
  stop : Time
  brk : Time
  break_duration : Nat
  max_nurses : Nat
  usage : Nat
  days : List Bool
deriving DecidableEq

/-- One row of the task solution table as the validator reads it. -/
structure VTaskRow where
  start_window : Time
  end_window : Time
  solution_start : Time
  day_index : Nat
  duration : Nat
  required_nurses : Nat
deriving DecidableEq

/-- `self.shifts = shifts_df[shifts_df["usage"] != 0]`
(validator.py 28). -/
def used_shifts (shifts : List VShiftRow) : List VShiftRow :=
  shifts.filter (fun sh => sh.usage != 0)

/-- The per-(shift, day) update of `shift_coverage`
(validator.py 104-156), with the exact branch structure of the source:
break / no break, shift crossing midnight or not, break crossing
midnight or not, break starting the same or the next day. -/
def shift_cov_day (sh : VShiftRow) (cov : Nat → Nat) (d : Nat) : Nat → Nat :=
  if sh.days.getD d false then
    let usage := sh.usage
    let idx := get_shift_index sh.start sh.stop d sh.brk sh.break_duration
    let si := idx.1
    let ei := idx.2.1
    let sbi := idx.2.2.1
    let ebi := idx.2.2.2
    if sh.break_duration ≠ 0 then
      if si < ei then
        if sbi < ebi then
          addRange (addRange cov si sbi usage) ebi ei usage
        else
          addRange (addRange (addRange cov si sbi usage) ebi 672 usage) 0 ei usage
      else
        if sbi < ebi then
          if si < sbi then
            addRange (addRange (addRange cov si sbi usage) ebi 672 usage) 0 ei usage
          else
            addRange (addRange (addRange cov si 672 usage) 0 sbi usage) ebi ei usage
        else
          addRange (addRange cov si 672 usage) 0 ei usage
    else
      if si < ei then addRange cov si ei usage
      else addRange (addRange cov si 672 usage) 0 ei usage
  else cov

/-- `shift_coverage` (validator.py 96-158) over the given (already
filtered) shift rows. -/
def shifts_coverage (shifts : List VShiftRow) : Nat → Nat :=
  shifts.foldl (fun cov sh => (List.range 7).foldl (shift_cov_day sh) cov) zeroCover

/-- `get_task_index` (validator.py 181-192). -/
def get_task_index (start_window solution_start : Time) (d duration : Nat) :
    Nat × Nat :=
  let q := to_quarter solution_start
  let sd := get_end_day start_window solution_start d
  let si := sd * 96 + q
  (si, (si + duration / 15) % 672)

/-- The per-task update of `task_coverage` (validator.py 200-217). -/
def add_task_cov (cov : Nat → Nat) (t : VTaskRow) : Nat → Nat :=
  let idx := get_task_index t.start_window t.solution_start t.day_index t.duration
  if idx.1 < idx.2 then addRange cov idx.1 idx.2 t.required_nurses
  else addRange (addRange cov idx.1 672 t.required_nurses) 0 idx.2 t.required_nurses

/-- `get_unique_start_times` (validator.py 160-179): the distinct
(day, start time) pairs of the given shift rows, rows first, then days. -/
def start_combos (shifts : List VShiftRow) : List (Nat × Time) :=
  ((shifts.map (fun sh => (List.range 7).filterMap (fun d =>
    if sh.days.getD d false then some (d, sh.start) else none))).flatten).dedup

/-- `task_coverage` (validator.py 194-230): task demand plus one briefing
nurse at the start block of each distinct (day, start time) of the given
shift rows. -/
def tasks_coverage (shifts : List VShiftRow) (tasks : List VTaskRow) : Nat → Nat :=
  let covT := tasks.foldl add_task_cov zeroCover
  (start_combos shifts).foldl (fun cov c =>
    let si := (get_task_index c.2 c.2 c.1 0).1
    fun b => if b = si then cov b + 1 else cov b) covT

/-- `check_coverage` (validator.py 232-249): no block where tasks need
more nurses than the shifts supply. -/
def check_coverage (shifts : List VShiftRow) (tasks : List VTaskRow) : Bool :=
  (List.range 672).all (fun i =>
    decide (tasks_coverage shifts tasks i ≤ shifts_coverage shifts i))

/-- The per-task window test of `task_in_window` (validator.py 251-282);
the Python code compares zero-padded `HH:MM` strings, whose
lexicographic order is the minutes-of-day order. -/
def in_window (t : VTaskRow) : Bool :=
  if timeMin t.start_window ≤ timeMin t.end_window then
    decide (timeMin t.start_window ≤ timeMin t.solution_start) &&
    decide (timeMin t.solution_start ≤ timeMin t.end_window)
  else
    decide (timeMin t.start_window ≤ timeMin t.solution_start) ||
    decide (timeMin t.solution_start ≤ timeMin t.end_window)

/-- `task_in_window` (validator.py 251-282) over all task rows. -/
def task_in_window (tasks : List VTaskRow) : Bool :=
  tasks.all in_window

/-- `check_max_nurses` (validator.py 284-300) over the given rows. -/
def check_max_nurses (shifts : List VShiftRow) : Bool :=
  shifts.all (fun sh => decide (sh.usage ≤ sh.max_nurses))

/-- `always_nurses_available` (validator.py 302-315): no block with zero
shift coverage. -/
def always_nurses_available (shifts : List VShiftRow) : Bool :=
  (List.range 672).all (fun i => shifts_coverage shifts i != 0)

/-- `validate_schedule` (validator.py 317-356): build the validator on
the used shift rows, run the four checks, and return their
conjunction. -/
def validate_schedule (shifts : List VShiftRow) (tasks : List VTaskRow) : Bool :=
  let used := used_shifts shifts
  check_coverage used tasks && task_in_window tasks &&
  check_max_nurses used && always_nurses_available used


/-! ## Pre-solve capacity and the solver call path (for claim C8). -/

/-- The claim's pre-solve capacity of a block: summed `max_nurses` of the
shift templates whose compiled coverage is positive there. -/
def capacity_at (shifts : List ShiftRow) (b : Nat) : Nat :=
  ((shifts.enum.filter (fun p => 0 < shift_coverage_arr p.2 b)).map
    (fun p => p.2.max_nurses)).sum

/-- The demand already fixed before solving: summed requirements of the
task instances whose window admits a single start block
(`earliest_block = latest_block`) and whose occupancy then covers
block `b`. -/
def forced_demand (ts : List TaskInfo) (b : Nat) : Nat :=
  ((ts.enum.filter (fun p =>
      p.2.earliest_block == p.2.latest_block && in_cover_keys p.2 b)).map
    (fun p => p.2.required_nurses)).sum

/-- `call_cp_solver` (utils.py 59-82) composed with
`OptimalNurseSchedulerCP.solve` (cp_solver.py 242-302): preprocess the
rows, build the model unconditionally — no capacity check exists
anywhere on this path — and hand it to the backend, whose verdict is
returned as is.  The backend (`CpSolver.SolveWithSolutionCallback`) is
abstracted as a function receiving the built model, identified with its
satisfaction predicate. -/
def call_cp_solver (backend : (CPAssign → Bool) → Option CPAssign)
    (shifts : List ShiftRow) (tasks : List TaskRow) (min_nurses : Nat) :
    Option CPAssign :=
  backend (cp_model_sat shifts tasks min_nurses)


/-! ## Concrete instances used by the claim theorems. -/

def allDays : List Bool := [true, true, true, true, true, true, true]

def monOnly : List Bool := [true, false, false, false, false, false, false]

def sunOnly : List Bool := [false, false, false, false, false, false, true]

def monSun : List Bool := [true, false, false, false, false, false, true]

/-- Shift A: every day 00:00-19:00, zero-length break at 23:00 (outside
its own coverage), cap 5. -/
def shiftA : ShiftRow :=
  { start := ⟨0, 0⟩, stop := ⟨19, 0⟩, brk := ⟨23, 0⟩,
    break_duration := 0, max_nurses := 5, days := allDays }

/-- Shift B: every day 12:00-00:15 (crossing midnight), zero-length break
at 18:00, cap 5.  Together with shift A it covers all 672 blocks. -/
def shiftB : ShiftRow :=
  { start := ⟨12, 0⟩, stop := ⟨0, 15⟩, brk := ⟨18, 0⟩,
    break_duration := 0, max_nurses := 5, days := allDays }

def shiftsAB : List ShiftRow := [shiftA, shiftB]

/-- Assignment for C2: one nurse on each of A and B; handover flags at the
start blocks (multiples of 48); no tasks. -/
def sigmaC2 : CPAssign :=
  { U := fun _ => 1, S := fun _ => 0, A := fun _ _ => false,
    aux1 := fun _ _ => false, aux2 := fun _ _ => false,
    H := fun b => b % 48 == 0 }

/-- Gurobi assignment for C2 over the same shifts. -/
def tauC2 : GRBAssign :=
  { f := fun _ _ => false, u := fun _ _ => false, k := fun _ => 1,
    x := fun b => if b % 48 == 0 then 2 else 1,
    n := fun b => shift_coverage_arr shiftA b + shift_coverage_arr shiftB b,
    r := fun b => if b % 48 == 0 then 1 else 0,
    p := fun b => b % 48 == 0 }

/-- A Monday task fixed at 13:00, 15 minutes, one nurse (for C4). -/
def taskMon13 : TaskRow :=
  { start := ⟨13, 0⟩, stop := ⟨13, 0⟩, duration_min := 15,
    nurses_required := 1, days := monOnly }

/-- Assignment for C4: the task occupies exactly block 52. -/
def sigmaC4 : CPAssign :=
  { U := fun _ => 1, S := fun _ => 52, A := fun _ b => b == 52,
    aux1 := fun _ eb => decide (52 ≤ eb), aux2 := fun _ eb => decide (eb < 53),
    H := fun b => b % 48 == 0 }

/-- The spec's E3 task: Sunday window 22:00 - Monday 02:00, 30 minutes. -/
def taskE3 : TaskRow :=
  { start := ⟨22, 0⟩, stop := ⟨2, 0⟩, duration_min := 30,
    nurses_required := 1, days := sunOnly }

/-- Assignment for C5: the E3 task starts at the unreduced block 673,
Monday 00:15. -/
def sigmaC5 : CPAssign :=
  { U := fun _ => 1, S := fun _ => 673,
    A := fun _ b => b == 1 || b == 2,
    aux1 := fun _ eb => decide (673 ≤ eb), aux2 := fun _ eb => decide (eb < 675),
    H := fun b => b % 48 == 0 }

/-- Night shift for C3: every day 20:00-08:00, break 00:00-01:00, cap 5. -/
def shiftN : ShiftRow :=
  { start := ⟨20, 0⟩, stop := ⟨8, 0⟩, brk := ⟨0, 0⟩,
    break_duration := 60, max_nurses := 5, days := allDays }

/-- Day shift for C3: every day 08:00-20:00, zero-length break at 12:00,
cap 5. -/
def shiftD : ShiftRow :=
  { start := ⟨8, 0⟩, stop := ⟨20, 0⟩, brk := ⟨12, 0⟩,
    break_duration := 0, max_nurses := 5, days := allDays }

/-- Task for C3: every day, window 12:00-12:00 (start forced), 15
minutes, one nurse. -/
def taskNoon : TaskRow :=
  { start := ⟨12, 0⟩, stop := ⟨12, 0⟩, duration_min := 15,
    nurses_required := 1, days := allDays }

/-- The C3 solution, model side: one nurse on N, two on D; instance `i`
(day `i`) starts at block `96 i + 48`; occupancy booleans are the start
indicators; handover flags at the start blocks (day offsets 32 and 80). -/
def sigmaC3 : CPAssign :=
  { U := fun s => if s == 0 then 1 else 2,
    S := fun i => 96 * i + 48,
    A := fun i b => b == 96 * i + 48,
    aux1 := fun i eb => decide (96 * i + 48 ≤ eb),
    aux2 := fun i eb => decide (eb < 96 * i + 49),
    H := fun b => b % 96 == 32 || b % 96 == 80 }

/-- The C3 solution as the validator reads it: the shift rows with their
usage column. -/
def vShiftN : VShiftRow :=
  { start := ⟨20, 0⟩, stop := ⟨8, 0⟩, brk := ⟨0, 0⟩,
    break_duration := 60, max_nurses := 5, usage := 1, days := allDays }

def vShiftD : VShiftRow :=
  { start := ⟨8, 0⟩, stop := ⟨20, 0⟩, brk := ⟨12, 0⟩,
    break_duration := 0, max_nurses := 5, usage := 2, days := allDays }

def vShiftsC3 : List VShiftRow := [vShiftN, vShiftD]

/-- The C3 task solution table: one row per day, all starting 12:00. -/
def vTasksC3 : List VTaskRow :=
  (List.range 7).map (fun d =>
    { start_window := ⟨12, 0⟩, end_window := ⟨12, 0⟩, solution_start := ⟨12, 0⟩,
      day_index := d, duration := 15, required_nurses := 1 })

/-- Shift for C7: Monday and Sunday 23:00-07:00, nominal break 22:45
(precedes the start, so shifted by 24h) of 60 minutes. -/
def shiftC7 : ShiftRow :=
  { start := ⟨23, 0⟩, stop := ⟨7, 0⟩, brk := ⟨22, 45⟩,
    break_duration := 60, max_nurses := 1, days := monSun }

/-- Task for C8: Monday, window 13:00-13:00, 15 minutes, seven nurses
(more than shift A's cap). -/
def taskBig : TaskRow :=
  { start := ⟨13, 0⟩, stop := ⟨13, 0⟩, duration_min := 15,
    nurses_required := 7, days := monOnly }

/-- An arbitrary all-zero assignment (for the C8 witness). -/
def sigmaZero : CPAssign :=
  { U := fun _ => 0, S := fun _ => 0, A := fun _ _ => false,
    aux1 := fun _ _ => false, aux2 := fun _ _ => false, H := fun _ => false }

/-! ## Theorems. -/




/-- C1 (counterexample). The claim says `add_coverage_blocks arr s e` sets
exactly the closed block range `[s / 15, (e - 1) / 15]` and that
`e = 10080` does not wrap.  Both parts fail on the code:
* for the one-block interval `[0, 15)` the code also sets block 1,
  which lies outside the claimed range `[0, 0]`;
* for the interval `[1380, 1440)` (Monday 23:00-24:00, a day boundary)
  the code also sets block 96, the first block of Tuesday;
* for `[10065, 10080)` the code takes the wrap branch and writes
  Monday block 0. -/
theorem C1_counterexample :
    add_coverage_blocks zeroCover 0 15 1 = 1 ∧ ¬ (1 ≤ (15 - 1) / 15) ∧
    add_coverage_blocks zeroCover 1380 1440 96 = 1 ∧ ¬ (96 ≤ (1440 - 1) / 15) ∧
    add_coverage_blocks zeroCover 10065 10080 0 = 1 ∧ ¬ (10065 / 15 ≤ 0) := by
  refine ⟨by decide, by decide, by decide, by decide, by decide, by decide⟩

/-- C1 (amended).  For `start_min < end_min ≤ 10080`,
`add_coverage_blocks` sets to 1 exactly the blocks of the closed range
`[start_min / 15, end_min / 15]` (one block beyond the half-open
lowering whenever `end_min` is a block boundary) when
`end_min < 10080`; and when `end_min = 10080` it takes the wrap branch,
setting `[start_min / 15, 671]` together with Monday block 0.  All
other entries are unchanged. -/
theorem C1_amended (arr : Nat → Nat) (s e b : Nat)
    (hse : s < e) (he : e ≤ WEEK_MINUTES) :
    add_coverage_blocks arr s e b =
      (if e < WEEK_MINUTES then
        (if s / 15 ≤ b ∧ b ≤ e / 15 then 1 else arr b)
      else
        (if (s / 15 ≤ b ∧ b < 672) ∨ b = 0 then 1 else arr b)) := by
  have hW : WEEK_MINUTES = 10080 := rfl
  rw [hW] at he
  simp only [add_coverage_blocks, writeRange, minute_to_block,
    WEEK_MINUTES, TIME_GRAN, N_BLOCKS, ite_apply, Nat.min_def, Nat.max_def]
  split_ifs <;> first | rfl | omega

/-- C1 (witness for the amended theorem): interval `[480, 960)`
(Monday 08:00-16:00) evaluated at block 64 = 960 / 15. -/
theorem C1_amended_witness :
    add_coverage_blocks zeroCover 480 960 64 =
      (if 960 < WEEK_MINUTES then
        (if 480 / 15 ≤ 64 ∧ 64 ≤ 960 / 15 then 1 else zeroCover 64)
      else
        (if (480 / 15 ≤ 64 ∧ 64 < 672) ∨ 64 = 0 then 1 else zeroCover 64)) :=
  C1_amended zeroCover 480 960 64 (by decide) (by decide)

/-- C6 (code bug).  The claim (and the docstring of
`remove_coverage_blocks`, which describes the half-open interval
`[start_min, end_min)`) says the empty interval
`[break_start, break_start)` leaves every entry unchanged.  The code
computes `e_block = max(s_block, end_min // 15) = s_block` and then
clears the closed range `[s_block, s_block]`: the block containing
`break_start` is zeroed.  Failing input: an array with block 48 set,
break interval `[720, 720)`. -/
theorem C6_code_bug :
    remove_coverage_blocks (fun b => if b = 48 then 1 else 0) 720 720 48 = 0 ∧
    (fun b => if b = 48 then 1 else 0 : Nat → Nat) 48 = 1 := by
  exact ⟨by decide, by decide⟩

/-- C10.  Both bitmap mutators only write indices inside `[0, 672)`: every
index at or beyond 672 is left unchanged, for any `end_min`, however far
past the week it reaches (each written range is capped by
`min (.) N_BLOCKS`).  Termination is by construction: the embedded
functions are structurally total. -/
theorem C10_no_out_of_bounds (arr : Nat → Nat) (s e b : Nat)
    (hs : s < WEEK_MINUTES) (hse : s ≤ e) (hb : 672 ≤ b) :
    add_coverage_blocks arr s e b = arr b ∧
    remove_coverage_blocks arr s e b = arr b := by
  have hW : WEEK_MINUTES = 10080 := rfl
  rw [hW] at hs
  constructor
  · simp only [add_coverage_blocks, writeRange, minute_to_block,
      WEEK_MINUTES, TIME_GRAN, N_BLOCKS, ite_apply, Nat.min_def, Nat.max_def]
    split_ifs <;> first | rfl | omega
  · simp only [remove_coverage_blocks, writeRange, minute_to_block,
      WEEK_MINUTES, TIME_GRAN, N_BLOCKS, ite_apply, Nat.min_def, Nat.max_def]
    split_ifs <;> first | rfl | omega

/-- C10 (witness): `start_min = 0`, `end_min = 21000` (more than a full
week past 10080), evaluated at index 672. -/
theorem C10_no_out_of_bounds_witness :
    add_coverage_blocks zeroCover 0 21000 672 = zeroCover 672 ∧
    remove_coverage_blocks zeroCover 0 21000 672 = zeroCover 672 :=
  C10_no_out_of_bounds zeroCover 0 21000 672 (by decide) (by decide) (by decide)



/-! ## Helper lemmas shared by several claim proofs. -/

/-- Sums over two filters of one list compare when the first filter
implies the second and the summand is pointwise bounded on it. -/
theorem sum_filter_mono {α : Type} (l : List α) (P Q : α → Bool) (f g : α → Nat)
    (hPQ : ∀ a ∈ l, P a = true → Q a = true)
    (hfg : ∀ a ∈ l, P a = true → f a ≤ g a) :
    ((l.filter P).map f).sum ≤ ((l.filter Q).map g).sum := by
  induction l with
  | nil => simp
  | cons a t ih =>
    have ht1 : ∀ x ∈ t, P x = true → Q x = true :=
      fun x hx => hPQ x (List.mem_cons_of_mem a hx)
    have ht2 : ∀ x ∈ t, P x = true → f x ≤ g x :=
      fun x hx => hfg x (List.mem_cons_of_mem a hx)
    have hih := ih ht1 ht2
    cases hP : P a with
    | true =>
      have hQ := hPQ a (List.mem_cons_self a t) hP
      simp only [List.filter_cons, hP, hQ, if_true, List.map_cons, List.sum_cons]
      exact Nat.add_le_add (hfg a (List.mem_cons_self a t) hP) hih
    | false =>
      cases hQ : Q a with
      | true =>
        simp only [List.filter_cons, hP, hQ, if_true, Bool.false_eq_true, if_false,
          List.map_cons, List.sum_cons]
        exact le_trans hih (Nat.le_add_left _ _)
      | false =>
        simp only [List.filter_cons, hP, hQ, Bool.false_eq_true, if_false]
        exact hih

/-- Per-element reading of `reif_ok`: in any satisfying assignment the
occupancy boolean of instance `i` at key `eb % N_BLOCKS` holds exactly
when the start places the instance on `eb`. -/
theorem reif_elem (ts : List TaskInfo) (σ : CPAssign) (i : Nat) (t : TaskInfo)
    (hmem : (i, t) ∈ ts.enum) (h : reif_ok ts σ = true)
    (eb : Nat) (heb : eb ∈ ext_blocks t) :
    (σ.A i (eb % N_BLOCKS) = true ↔
      σ.S i ≤ eb ∧ eb < σ.S i + t.duration_blocks) := by
  unfold reif_ok at h
  rw [List.all_eq_true] at h
  have h2 := h (i, t) hmem
  rw [List.all_eq_true] at h2
  have h3 := h2 eb heb
  simp only [Bool.and_eq_true, beq_iff_eq] at h3
  obtain ⟨⟨ha1, ha2⟩, hA⟩ := h3
  cases hA2 : σ.A i (eb % N_BLOCKS) with
  | true =>
    rw [hA2, if_pos rfl] at hA
    rw [Bool.and_eq_true, ha1, ha2, decide_eq_true_eq, decide_eq_true_eq] at hA
    exact iff_of_true rfl hA
  | false =>
    rw [hA2, if_neg (by simp)] at hA
    rw [Bool.or_eq_true, Bool.not_eq_true', Bool.not_eq_true', ha1, ha2,
      decide_eq_false_iff_not, decide_eq_false_iff_not] at hA
    simp only [Bool.false_eq_true, false_iff]
    intro hcontra
    rcases hA with hx | hx
    · exact hx hcontra.1
    · exact hx hcontra.2

/-- Per-element reading of `start_ok`. -/
theorem start_elem (ts : List TaskInfo) (σ : CPAssign) (i : Nat) (t : TaskInfo)
    (hmem : (i, t) ∈ ts.enum) (h : start_ok ts σ = true) :
    (adjusted_range t).1 ≤ σ.S i ∧ σ.S i ≤ (adjusted_range t).2 := by
  unfold start_ok at h
  rw [List.all_eq_true] at h
  have h2 := h (i, t) hmem
  rw [Bool.and_eq_true, decide_eq_true_eq, decide_eq_true_eq] at h2
  exact h2



/-- C2 (counterexample).  The claim says both builders require the
effective coverage `raw - startsAt - H` to be at least the floor.  With
shifts A and B (covering the whole week, both with one nurse), floor 1,
the model of either builder is satisfied, yet at block 0 (Monday 00:00,
where shift A starts) the effective coverage is `2 - 1 - 1 = 0 < 1`:
the builders constrain only the raw coverage. -/
theorem C2_counterexample :
    cp_model_sat shiftsAB [] 1 sigmaC2 = true ∧
    gurobi_model_sat shiftsAB [] 1 tauC2 = true ∧
    (raw_coverage shiftsAB sigmaC2.U 0 : Int) - starts_at shiftsAB sigmaC2.U 0
      - b2n (sigmaC2.H 0) < 1 := by
  refine ⟨by decide, by decide, by decide⟩

/-- C2 (amended).  In both builders the configured floor constrains the
raw per-block coverage sum, not the effective coverage: any satisfying
assignment of the CP model has `min_nurses ≤ raw_coverage` at every
block whenever `min_nurses > 0` (the CP builder skips the constraint at
0), and any satisfying assignment of the Gurobi model has
`min_nurses ≤ n[t] = Σ e[j,t]·k[j]` at every block. -/
theorem C2_amended :
    (∀ (shifts : List ShiftRow) (tasks : List TaskRow) (mn : Nat) (σ : CPAssign),
      cp_model_sat shifts tasks mn σ = true → ∀ b, b < N_BLOCKS → 0 < mn →
        mn ≤ raw_coverage shifts σ.U b) ∧
    (∀ (shifts : List ShiftRow) (tasks : List TaskRow) (mn : Nat) (τ : GRBAssign),
      gurobi_model_sat shifts tasks mn τ = true → ∀ b, b < N_BLOCKS →
        mn ≤ (shifts.enum.map (fun q => shift_coverage_arr q.2 b * τ.k q.1)).sum) := by
  constructor
  · intro shifts tasks mn σ h b hb hmn
    simp only [cp_model_sat, Bool.and_eq_true] at h
    have hf := h.2
    unfold floor_ok at hf
    rw [List.all_eq_true] at hf
    have hf2 := hf b (List.mem_range.mpr hb)
    rw [if_pos hmn] at hf2
    exact of_decide_eq_true hf2
  · intro shifts tasks mn τ h b hb
    simp only [gurobi_model_sat, Bool.and_eq_true] at h
    obtain ⟨⟨rest6, h7⟩, h8⟩ := h
    obtain ⟨rest5, h6⟩ := rest6
    have hx : mn ≤ τ.x b := by
      rw [List.all_eq_true] at h6
      exact of_decide_eq_true (h6 b (List.mem_range.mpr hb))
    have hn : τ.n b = (shifts.enum.map (fun q => shift_coverage_arr q.2 b * τ.k q.1)).sum := by
      rw [List.all_eq_true] at h7
      have h7b := h7 b (List.mem_range.mpr hb)
      simpa only [beq_iff_eq] using h7b
    have hxn : τ.x b ≤ τ.n b := by
      rw [List.all_eq_true] at h8
      exact of_decide_eq_true (h8 b (List.mem_range.mpr hb))
    omega

/-- C2 (witness): the amended theorem instantiated on the concrete
instance of the counterexample, block 0. -/
theorem C2_amended_witness :
    1 ≤ raw_coverage shiftsAB sigmaC2.U 0 ∧
    1 ≤ (shiftsAB.enum.map (fun q => shift_coverage_arr q.2 0 * tauC2.k q.1)).sum :=
  ⟨C2_amended.1 shiftsAB [] 1 sigmaC2 (by decide) 0 (by decide) (by decide),
   C2_amended.2 shiftsAB [] 1 tauC2 (by decide) 0 (by decide)⟩



/-- C4.  In every satisfying assignment of the CP model, for every task
instance `(i, t)` and every `b` in its extended active range
`range(earliest, adjustedLatest + durationBlocks)` (`ext_blocks`), the
occupancy boolean keyed by `b % 672` holds exactly when
`S[i] ≤ b < S[i] + durationBlocks[i]`. -/
theorem C4_occupancy (shifts : List ShiftRow) (tasks : List TaskRow)
    (mn : Nat) (σ : CPAssign) (h : cp_model_sat shifts tasks mn σ = true)
    (i : Nat) (t : TaskInfo) (hmem : (i, t) ∈ (tasks_info tasks).enum)
    (b : Nat) (hb : b ∈ ext_blocks t) :
    (σ.A i (b % N_BLOCKS) = true ↔
      σ.S i ≤ b ∧ b < σ.S i + t.duration_blocks) := by
  have hr2 : reif_ok (tasks_info tasks) σ = true := by
    simp only [cp_model_sat, Bool.and_eq_true] at h
    exact h.1.1.1.2
  exact reif_elem _ σ i t hmem hr2 b hb

/-- C4 (witness): the Monday 13:00 task of `taskMon13` under the
satisfying assignment `sigmaC4`, at block 52. -/
theorem C4_occupancy_witness :
    sigmaC4.A 0 (52 % N_BLOCKS) = true ↔
      sigmaC4.S 0 ≤ 52 ∧ 52 < sigmaC4.S 0 + (⟨52, 52, 1, 1⟩ : TaskInfo).duration_blocks :=
  C4_occupancy shiftsAB [taskMon13] 1 sigmaC4 (by decide) 0 ⟨52, 52, 1, 1⟩
    (by decide) 52 (by decide)

/-- C5.  The E3 task (window Sunday 22:00 to Monday 02:00, duration 30
minutes) is preprocessed to earliest block 664 and latest block 8
(reduced mod 672); the builder widens this to the linear, unreduced
interval [664, 680], which is exactly the start variable's domain; the
start block 673 — Monday 00:15, since 673 mod 672 = 1 and block 1 starts
at minute 15 — lies in that domain, witnessed by a fully satisfying
assignment choosing it. -/
theorem C5_sunday_monday_wrap :
    tasks_info [taskE3] = [⟨664, 8, 2, 1⟩] ∧
    adjusted_range ⟨664, 8, 2, 1⟩ = (664, 680) ∧
    sigmaC5.S 0 = 673 ∧ (664 ≤ 673 ∧ 673 ≤ 680) ∧
    start_ok (tasks_info [taskE3]) sigmaC5 = true ∧
    cp_model_sat shiftsAB [taskE3] 1 sigmaC5 = true ∧
    673 % N_BLOCKS = 1 ∧ block_to_minute 1 = 15 := by
  refine ⟨by decide, by decide, by decide, by decide, by decide, by decide,
    by decide, by decide⟩

/-- C7 (counterexample).  The claim says the break interval is clamped to
`[startMin, endMin]`, so no block outside the shift is ever cleared.
On `shiftC7` (Monday and Sunday 23:00-07:00, nominal break 22:45 of 60
minutes) the Sunday break is shifted to `[11445, 11505)`, far beyond the
Sunday shift end 10500 — no clamping happens — and its wrapped removal
clears block 92 (Monday 23:00), a block inside the Monday instance
`[1380, 1860]` of the shift and outside every break clamped to its
shift. -/
theorem C7_counterexample :
    compute_start_end_minutes 6 shiftC7.start shiftC7.stop = (10020, 10500) ∧
    break_interval shiftC7 6 10020 = (11445, 11505) ∧
    ¬ (11505 ≤ 10500) ∧
    shift_coverage_arr shiftC7 92 = 0 ∧
    compute_start_end_minutes 0 shiftC7.start shiftC7.stop = (1380, 1860) ∧
    (1380 / 15 ≤ 92 ∧ 92 ≤ 1860 / 15) ∧
    break_interval shiftC7 0 1380 = (2805, 2865) ∧ ¬ (2805 / 15 ≤ 92) := by
  refine ⟨by decide, by decide, by decide, by decide, by decide, by decide,
    by decide, by decide⟩

/-- C7 (amended).  `NurseSchedulingPreprocessor` applies no clamping: the
removal interval is `[break_start, break_start + break_duration)` with
only the 24h shift.  When that interval happens to lie inside
`[startMin, endMin]` and ends before the week boundary, every block it
clears lies in the shift's own closed block range
`[startMin / 15, endMin / 15]`; a break reaching past `endMin` can clear
blocks outside the shift (see the counterexample). -/
theorem C7_amended (arr : Nat → Nat) (s e bs be b : Nat)
    (hsbs : s ≤ bs) (hbsbe : bs ≤ be) (hbee : be ≤ e) (he : e < WEEK_MINUTES)
    (hchg : remove_coverage_blocks arr bs be b ≠ arr b) :
    s / 15 ≤ b ∧ b ≤ e / 15 := by
  have hW : WEEK_MINUTES = 10080 := rfl
  rw [hW] at he
  simp only [remove_coverage_blocks, writeRange, minute_to_block,
    WEEK_MINUTES, TIME_GRAN, N_BLOCKS, ite_apply, Nat.min_def, Nat.max_def] at hchg
  split_ifs at hchg <;> omega

/-- C7 (witness for the amended theorem): Monday 08:00-16:00 with break
12:00-12:30; the cleared block 48 lies inside `[32, 64]`. -/
theorem C7_amended_witness : 480 / 15 ≤ 48 ∧ 48 ≤ 960 / 15 :=
  C7_amended (fun _ => 1) 480 960 720 750 48 (by decide) (by decide)
    (by decide) (by decide) (by decide)

/-- C8 (counterexample).  The claim says that when the summed caps of the
templates covering a block cannot meet that block's demand, model
building fails with a `CapacityInfeasible` error and the backend is
never invoked.  On shift A (cap 5) with a Monday task fixed at 13:00
requiring 7 nurses, block 52 is capacity-infeasible, yet no error
exists: `call_cp_solver` still hands the built model to the backend and
returns the backend's verdict unchanged. -/
theorem C8_counterexample :
    capacity_at [shiftA] 52 < forced_demand (tasks_info [taskBig]) 52 ∧
    call_cp_solver (fun _ => none) [shiftA] [taskBig] 0 = none := by
  refine ⟨by decide, rfl⟩

/-- C8 (amended).  No capacity pre-check exists: the model is always
built and handed to the backend.  Instead, capacity infeasibility makes
the built model unsatisfiable: whenever the summed caps of the covering
templates at some block are below the demand already forced there
(instances whose window admits a single start), no assignment satisfies
the CP model, so the backend reports infeasibility. -/
theorem C8_amended (shifts : List ShiftRow) (tasks : List TaskRow)
    (mn : Nat) (σ : CPAssign) (b : Nat) (hb : b < N_BLOCKS)
    (hcap : capacity_at shifts b < forced_demand (tasks_info tasks) b) :
    cp_model_sat shifts tasks mn σ = false := by
  cases hcm : cp_model_sat shifts tasks mn σ with
  | false => rfl
  | true =>
    exfalso
    simp only [cp_model_sat, Bool.and_eq_true] at hcm
    obtain ⟨⟨⟨⟨⟨hu, hst⟩, hr⟩, hh⟩, hc⟩, hf⟩ := hcm
    have h1 : raw_coverage shifts σ.U b ≤ capacity_at shifts b := by
      unfold raw_coverage capacity_at
      apply sum_filter_mono
      · intro a _ hPa; exact hPa
      · intro a ha _
        unfold usage_ok at hu
        rw [List.all_eq_true] at hu
        exact of_decide_eq_true (hu a ha)
    have h2 : task_demand (tasks_info tasks) σ b ≤ raw_coverage shifts σ.U b := by
      unfold coverage_ok at hc
      rw [List.all_eq_true] at hc
      have hcb := hc b (List.mem_range.mpr hb)
      unfold cp_block_ok at hcb
      have h3 := of_decide_eq_true hcb
      omega
    have h3 : forced_demand (tasks_info tasks) b ≤
        task_demand (tasks_info tasks) σ b := by
      unfold forced_demand task_demand
      apply sum_filter_mono
      · intro p _ hPp
        rw [Bool.and_eq_true] at hPp
        exact hPp.2
      · intro p hp hPp
        rw [Bool.and_eq_true, beq_iff_eq] at hPp
        obtain ⟨hel, hkey⟩ := hPp
        have hp2 : (p.1, p.2) ∈ (tasks_info tasks).enum := by rwa [Prod.mk.eta]
        have hstart := start_elem _ σ p.1 p.2 hp2 hst
        have hadj : adjusted_range p.2 = (p.2.earliest_block, p.2.latest_block) := by
          unfold adjusted_range
          rw [if_neg (by omega)]
        have hS : σ.S p.1 = p.2.earliest_block := by
          rw [hadj] at hstart
          simp only at hstart
          omega
        unfold in_cover_keys at hkey
        rw [List.any_eq_true] at hkey
        obtain ⟨eb, hebmem, hebeq⟩ := hkey
        rw [beq_iff_eq] at hebeq
        have hiff := reif_elem _ σ p.1 p.2 hp2 hr eb hebmem
        have hbounds : p.2.earliest_block ≤ eb ∧
            eb < p.2.earliest_block + p.2.duration_blocks := by
          unfold ext_blocks at hebmem
          rw [hadj] at hebmem
          simp only at hebmem
          rw [List.mem_range'_1] at hebmem
          omega
        have hAtrue : σ.A p.1 (eb % N_BLOCKS) = true := hiff.mpr (by omega)
        rw [hebeq] at hAtrue
        rw [hAtrue]
        unfold b2n
        simp
    omega

/-- C8 (witness for the amended theorem): the capacity-infeasible
instance of the counterexample is unsatisfiable at the all-zero
assignment. -/
theorem C8_amended_witness :
    cp_model_sat [shiftA] [taskBig] 0 sigmaZero = false :=
  C8_amended [shiftA] [taskBig] 0 sigmaZero 52 (by decide) (by decide)



/-- C3 (code bug).  The claim says the validator's `supply - demand ≥ 0`
everywhere is equivalent to the model's per-block coverage constraint
holding everywhere, for any solution.  On the night/day instance (`N`
20:00-08:00 with a real break, `D` 08:00-20:00 with a zero-length break
at 12:00, one noon task per day) and the solution `usage = (1, 2)`,
every task starting 12:00, the two sides disagree: the validator's
coverage check passes at every one of the 672 blocks (supply 2, demand 1
at block 48), while the model's coverage constraint is violated at block
48, because the zero-length break erased `D`'s coverage of that block
(the bug of C6).  The assignment is a faithful valuation of the model's
variables: bounds, start windows, reification and handover constraints
all hold. -/
theorem C3_code_bug :
    check_coverage (used_shifts vShiftsC3) vTasksC3 = true ∧
    shifts_coverage (used_shifts vShiftsC3) 48 = 2 ∧
    tasks_coverage (used_shifts vShiftsC3) vTasksC3 48 = 1 ∧
    usage_ok [shiftN, shiftD] sigmaC3 = true ∧
    start_ok (tasks_info [taskNoon]) sigmaC3 = true ∧
    reif_ok (tasks_info [taskNoon]) sigmaC3 = true ∧
    handover_ok [shiftN, shiftD] sigmaC3 = true ∧
    cp_block_ok [shiftN, shiftD] (tasks_info [taskNoon]) sigmaC3 48 = false ∧
    shift_coverage_arr shiftD 48 = 0 := by
  refine ⟨by decide, by decide, by decide, by decide, by decide, by decide,
    by decide, by decide, by decide⟩

/-- C9.  `validate_schedule` returns one boolean, true exactly when all
four checks pass on the used shift rows: per-block coverage
(`demand ≤ supply` at all 672 blocks), every task's chosen start inside
its window respecting midnight wrap, `usage ≤ max_nurses` on every used
row, and non-empty presence (`supply ≥ 1` at all 672 blocks). -/
theorem C9_validate_schedule (shifts : List VShiftRow) (tasks : List VTaskRow) :
    validate_schedule shifts tasks = true ↔
      ((∀ b, b < 672 → tasks_coverage (used_shifts shifts) tasks b ≤
          shifts_coverage (used_shifts shifts) b) ∧
       (∀ t ∈ tasks,
         (timeMin t.start_window ≤ timeMin t.end_window →
           timeMin t.start_window ≤ timeMin t.solution_start ∧
           timeMin t.solution_start ≤ timeMin t.end_window) ∧
         (timeMin t.end_window < timeMin t.start_window →
           timeMin t.start_window ≤ timeMin t.solution_start ∨
           timeMin t.solution_start ≤ timeMin t.end_window)) ∧
       (∀ sh ∈ used_shifts shifts, sh.usage ≤ sh.max_nurses) ∧
       (∀ b, b < 672 → 1 ≤ shifts_coverage (used_shifts shifts) b)) := by
  unfold validate_schedule check_coverage task_in_window check_max_nurses
    always_nurses_available
  simp only [Bool.and_eq_true, List.all_eq_true, List.mem_range,
    decide_eq_true_eq, bne_iff_ne, ne_eq]
  constructor
  · rintro ⟨⟨⟨h1, h2⟩, h3⟩, h4⟩
    refine ⟨h1, fun t ht => ?_, h3,
      fun b hb => Nat.one_le_iff_ne_zero.mpr (h4 b hb)⟩
    have hw := h2 t ht
    unfold in_window at hw
    constructor
    · intro hle
      rw [if_pos hle, Bool.and_eq_true, decide_eq_true_eq, decide_eq_true_eq] at hw
      exact hw
    · intro hlt
      rw [if_neg (by omega), Bool.or_eq_true, decide_eq_true_eq,
        decide_eq_true_eq] at hw
      exact hw
  · rintro ⟨h1, h2, h3, h4⟩
    refine ⟨⟨⟨h1, fun t ht => ?_⟩, h3⟩,
      fun b hb => Nat.one_le_iff_ne_zero.mp (h4 b hb)⟩
    unfold in_window
    by_cases hle : timeMin t.start_window ≤ timeMin t.end_window
    · rw [if_pos hle, Bool.and_eq_true, decide_eq_true_eq, decide_eq_true_eq]
      exact (h2 t ht).1 hle
    · rw [if_neg hle, Bool.or_eq_true, decide_eq_true_eq, decide_eq_true_eq]
      exact (h2 t ht).2 (by omega)

end NS
